import Mathlib

/-!
Verification of the result-processing and view-derivation pipeline of the
dm_conflict dashboard: the smell-record filter of `CodeSmellDashboard.js`,
the chart-series builders of `SmellVisualization.js` and
`AnalysisResults.js`, the destructuring defaults of `SmellCard`, and the
summary-card quality-score display.  JavaScript objects built by
`reduce((acc, x) => { acc[k] = (acc[k] || 0) + 1; ... }, {})` are modelled
as association lists in key-insertion order, which is the iteration order
`Object.entries` gives for the non-numeric string keys used here.
JavaScript numbers are modelled as rationals, `Math.floor` as `Rat.floor`
and `Math.round x` as `Rat.floor (x + 1/2)`.
-/

namespace DmConflict

/-- A raw smell record as received from the analysis service: every field
may be absent (`none` models a missing / `undefined` JSON field). -/
structure Smell where
  smell_type : Option String := none
  description : Option String := none
  severity : Option String := none
  category : Option String := none
  line_number : Option Int := none
  column : Option Int := none
  file_path : Option String := none
  suggestion : Option String := none
  confidence : Option ℚ := none
deriving DecidableEq

/-- A fully-defaulted record, as produced by the destructuring defaults at
the top of the `SmellCard` component. -/
structure CanonicalSmell where
  smell_type : String
  description : String
  severity : String
  category : String
  line_number : Int
  column : Int
  file_path : String
  suggestion : String
  confidence : ℚ
deriving DecidableEq

/-- The `SmellCard` destructuring with defaults: a default applies only when
the field is absent (`undefined`); any present value passes through. -/
def normalizeSmell (smell : Smell) : CanonicalSmell :=
  { smell_type := smell.smell_type.getD "Unknown Issue"
    description := smell.description.getD "No description available"
    severity := smell.severity.getD "low"
    category := smell.category.getD "other"
    line_number := smell.line_number.getD 0
    column := smell.column.getD 0
    file_path := smell.file_path.getD ""
    suggestion := smell.suggestion.getD ""
    confidence := smell.confidence.getD 1 }

/-- JavaScript `x || d` on an optional string: `undefined` and the empty
string are falsy and yield the default. -/
def jsOrStr (x : Option String) (d : String) : String :=
  match x with
  | none => d
  | some s => if s = "" then d else s

/-- Does the character list start with the given pattern? -/
def charsStartWith : List Char → List Char → Bool
  | _, [] => true
  | [], _ :: _ => false
  | c :: cs, d :: ds => (c = d) && charsStartWith cs ds

/-- Occurrence of `needle` anywhere in `hay`, by sliding across `hay`. -/
def charsContain (needle : List Char) : List Char → Bool
  | [] => charsStartWith [] needle
  | c :: rest => charsStartWith (c :: rest) needle || charsContain needle rest

/-- JavaScript `hay.includes(needle)` on strings. -/
def jsIncludes (hay needle : String) : Bool :=
  charsContain needle.toList hay.toList

/-- JavaScript `s.toLowerCase()` (ASCII range, as exercised here). -/
def jsToLower (s : String) : String :=
  s.map Char.toLower

/-- JavaScript strict equality between a possibly-absent field and a
string: `undefined === s` is false for every string `s`. -/
def optStrEq (x : Option String) (y : String) : Bool :=
  match x with
  | some v => v == y
  | none => false

/-- The three dropdown/search predicates of `CodeSmellDashboard`. -/
structure FilterPredicate where
  severity : String
  category : String
  searchText : String
deriving DecidableEq

/-- The `matchesSearch` disjunct of `filteredSmells`:
`searchTerm === '' || smell.description.toLowerCase().includes(...) ||
smell.smell_type?.toLowerCase().includes(...)`.  `description` is accessed
without optional chaining, so a record with no `description` throws a
`TypeError` (modelled as `Except.error ()`) when the search text is
non-empty; `smell_type` uses `?.` and an absent value is merely falsy. -/
def matchesSearch (term : String) (smell : Smell) : Except Unit Bool :=
  if term == "" then Except.ok true
  else
    match smell.description with
    | none => Except.error ()
    | some d =>
      if jsIncludes (jsToLower d) (jsToLower term) then Except.ok true
      else
        match smell.smell_type with
        | none => Except.ok false
        | some t => Except.ok (jsIncludes (jsToLower t) (jsToLower term))

/-- The predicate body of `filteredSmells`: conjunction of the severity,
category and search matches. -/
def smellFilter (p : FilterPredicate) (smell : Smell) : Except Unit Bool :=
  let matchesSeverity := (p.severity == "all") || optStrEq smell.severity p.severity
  let matchesCategory := (p.category == "all") || optStrEq smell.category p.category
  match matchesSearch p.searchText smell with
  | Except.error e => Except.error e
  | Except.ok matchedSearch =>
    Except.ok (matchesSeverity && matchesCategory && matchedSearch)

/-- Models `smells.filter(...)` with the predicate above; a thrown `TypeError`
propagates out of `Array.prototype.filter`. -/
def filterSmells (p : FilterPredicate) : List Smell → Except Unit (List Smell)
  | [] => Except.ok []
  | smell :: rest =>
    match smellFilter p smell with
    | Except.error e => Except.error e
    | Except.ok b =>
      match filterSmells p rest with
      | Except.error e => Except.error e
      | Except.ok tail => Except.ok (if b then smell :: tail else tail)

/-- The empty predicate: both dropdowns on `"all"`, empty search box. -/
def emptyPredicate : FilterPredicate :=
  { severity := "all", category := "all", searchText := "" }

/-- One step of the counting `reduce`: `acc[k] = (acc[k] || 0) + 1`.  An
existing key keeps its position (JavaScript objects preserve insertion
order for string keys); a new key is appended. -/
def bump (acc : List (String × Nat)) (k : String) : List (String × Nat) :=
  if k ∈ acc.map Prod.fst then
    acc.map (fun kv => if kv.1 = k then (kv.1, kv.2 + 1) else kv)
  else acc ++ [(k, 1)]

/-- Keys of an association list, in order. -/
def keys (al : List (String × Nat)) : List String :=
  al.map Prod.fst

/-- Count stored under a key; 0 when the key is absent. -/
def lookupCount (k : String) : List (String × Nat) → Nat
  | [] => 0
  | kv :: rest => if kv.1 = k then kv.2 else lookupCount k rest

/-- Fold a key sequence into insertion-ordered counts, as the `reduce`
calls in `SmellVisualization` do. -/
def countsFold (ks : List String) : List (String × Nat) :=
  ks.foldl bump []

/-- Append a key if it has not been seen yet. -/
def insertNew (acc : List String) (k : String) : List String :=
  if k ∈ acc then acc else acc ++ [k]

/-- Distinct elements of a list in first-occurrence order. -/
def firstOcc (ks : List String) : List String :=
  ks.foldl insertNew []

/-- Occurrences of a key in a list of keys. -/
def countKey (k : String) : List String → Nat
  | [] => 0
  | x :: rest => countKey k rest + (if x = k then 1 else 0)

/-- Severity key used by `SmellVisualization`: `smell.severity || 'unknown'`. -/
def sevKey (smell : Smell) : String :=
  jsOrStr smell.severity "unknown"

/-- Category key used by `SmellVisualization`: `smell.category || 'other'`. -/
def catKey (smell : Smell) : String :=
  jsOrStr smell.category "other"

/-- The `severityData` reduce: counts of records per severity key, in first-occurrence
order (`smells.reduce(...)` over a plain object). -/
def severityData (smells : List Smell) : List (String × Nat) :=
  smells.foldl (fun acc smell => bump acc (sevKey smell)) []

/-- The `categoryData` reduce: counts of records per category key. -/
def categoryData (smells : List Smell) : List (String × Nat) :=
  smells.foldl (fun acc smell => bump acc (catKey smell)) []

/-- JavaScript `Math.round` (half rounds up). -/
def jsRound (x : ℚ) : Int :=
  Rat.floor (x + 1/2)

/-- The bucket lower bound computed by `SmellVisualization`:
`confidence = Math.round((smell.confidence || 0) * 100)` followed by
`range = Math.floor(confidence / 10) * 10`. -/
def confBucketLow (c : Option ℚ) : Int :=
  Rat.floor ((jsRound ((c.getD 0) * 100) : ℚ) / 10) * 10

/-- The confidence bucket key of `SmellVisualization`: the template string
`` `${range}-${range+9}%` ``. -/
def confKey (c : Option ℚ) : String :=
  toString (confBucketLow c) ++ "-" ++ toString (confBucketLow c + 9) ++ "%"

/-- The `confidenceData` reduce: counts of records per confidence-bucket label, in
first-occurrence order. -/
def confidenceData (smells : List Smell) : List (String × Nat) :=
  smells.foldl (fun acc smell => bump acc (confKey smell.confidence)) []

/-- Function `getSeverityColor` of `SmellVisualization.js`:
`colors[severity] || colors.unknown`. -/
def getSeverityColor (severity : String) : String :=
  if severity = "critical" then "#DC2626"
  else if severity = "high" then "#EA580C"
  else if severity = "medium" then "#D97706"
  else if severity = "low" then "#059669"
  else "#6B7280"

/-- Function `getCategoryColor` of `SmellVisualization.js`:
`colors[category] || colors.other`. -/
def getCategoryColor (category : String) : String :=
  if category = "security" then "#DC2626"
  else if category = "performance" then "#059669"
  else if category = "maintainability" then "#3B82F6"
  else if category = "complexity" then "#D97706"
  else if category = "style" then "#8B5CF6"
  else "#6B7280"

/-- Function `getSeverityColor` of `AnalysisResults.js`: a different palette, with
`colors[severity] || colors.low` as the fallback. -/
def getSeverityColorAR (severity : String) : String :=
  if severity = "critical" then "#DC2626"
  else if severity = "high" then "#EA580C"
  else if severity = "medium" then "#D97706"
  else "#65A30D"

/-- One entry of a chart series: `{name, count/value, fill}`. -/
structure ChartEntry where
  name : String
  count : Nat
  fill : String
deriving DecidableEq

/-- Series `severityChartData`: `Object.entries(severityData).map(...)`. -/
def severityChartData (smells : List Smell) : List ChartEntry :=
  (severityData smells).map fun kv =>
    { name := kv.1, count := kv.2, fill := getSeverityColor kv.1 }

/-- Series `categoryChartData`: `Object.entries(categoryData).map(...)`. -/
def categoryChartData (smells : List Smell) : List ChartEntry :=
  (categoryData smells).map fun kv =>
    { name := kv.1, count := kv.2, fill := getCategoryColor kv.1 }

/-- Series `confidenceChartData`: `Object.entries(confidenceData).map(...)`. -/
def confidenceChartData (smells : List Smell) : List (String × Nat) :=
  confidenceData smells

/-- The rendered output of the `SmellVisualization` component: either the
static "No data available for visualization" card or the three series. -/
inductive VizView where
  | noData : VizView
  | charts (severitySeries : List ChartEntry) (categorySeries : List ChartEntry)
      (confidenceSeries : List (String × Nat)) : VizView
deriving DecidableEq

/-- Component `SmellVisualization({ smells = [] })`: an absent prop defaults to `[]`,
and an empty collection short-circuits to the no-data card before any
series is derived. -/
def smellVisualization (smells : Option (List Smell)) : VizView :=
  let s := smells.getD []
  if s.isEmpty then VizView.noData
  else VizView.charts (severityChartData s) (categoryChartData s) (confidenceChartData s)

/-- The quality score shown by the `part_005` dashboard's summary card:
`smellSummary.quality_score || 85`.  The record collection is not
consulted; a score of `0` is falsy and is replaced by the fallback. -/
def deriveSummaryScore (smells : List Smell) (provided : Option Int) : Int :=
  match smells, provided with
  | _, none => 85
  | _, some q => if q = 0 then 85 else q

/-- The quality score shown by `CodeSmellDashboard.js`:
`smellSummary.quality_score || 'N/A'` (`none` models `'N/A'`). -/
def displayQualityScore (provided : Option Int) : Option Int :=
  match provided with
  | none => none
  | some q => if q = 0 then none else some q

/-- Occurrences of a given severity among the records, using the same
severity key as the visualization. -/
def severityCount (sv : String) (smells : List Smell) : Nat :=
  countKey sv (smells.map sevKey)

/-- Follows the spec's words (§4.4), for comparison with the source
behavior: start at 100 and subtract a fixed penalty per severity
occurrence — critical 15, high 8, medium 4, low 1 — floored at 0. -/
def specFallbackQualityScore (smells : List Smell) : Int :=
  max 0 (100 - 15 * (severityCount "critical" smells : Int)
    - 8 * (severityCount "high" smells : Int)
    - 4 * (severityCount "medium" smells : Int)
    - (severityCount "low" smells : Int))

/-- A record whose only populated field is a `critical` severity. -/
def criticalSmell : Smell := { severity := some "critical" }

/-- A record whose only populated field is a `low` severity. -/
def lowSmell : Smell := { severity := some "low" }

/-- A fully-populated sample record used to instantiate filter theorems. -/
def sampleSmell : Smell :=
  { smell_type := some "NullCheck"
    description := some "Possible null dereference"
    severity := some "high"
    category := some "style"
    confidence := none }

/-! ### Helper lemmas about the counting fold -/

theorem keys_map_incr (acc : List (String × Nat)) (k : String) :
    keys (acc.map (fun kv => if kv.1 = k then (kv.1, kv.2 + 1) else kv)) = keys acc := by
  simp only [keys, List.map_map]
  apply List.map_congr_left
  intro kv _
  by_cases h : kv.1 = k <;> simp [Function.comp, h]

theorem keys_bump (acc : List (String × Nat)) (k : String) :
    keys (bump acc k) = insertNew (keys acc) k := by
  unfold bump insertNew
  by_cases h : k ∈ acc.map Prod.fst
  · rw [if_pos h, keys_map_incr, if_pos (by simpa [keys] using h)]
  · rw [if_neg h, if_neg (by simpa [keys] using h)]
    simp [keys]

theorem lookupCount_map_incr_self (acc : List (String × Nat)) (k : String)
    (h : k ∈ acc.map Prod.fst) :
    lookupCount k (acc.map (fun kv => if kv.1 = k then (kv.1, kv.2 + 1) else kv)) =
      lookupCount k acc + 1 := by
  induction acc with
  | nil => simp at h
  | cons kv rest ih =>
    by_cases hk : kv.1 = k
    · simp [lookupCount, hk]
    · have hmem : k ∈ rest.map Prod.fst := by
        rw [List.map_cons] at h
        rcases List.mem_cons.1 h with h1 | h1
        · exact absurd h1.symm hk
        · exact h1
      simp [lookupCount, hk, ih hmem]

theorem lookupCount_map_incr_other (acc : List (String × Nat)) (k k' : String)
    (hne : k' ≠ k) :
    lookupCount k' (acc.map (fun kv => if kv.1 = k then (kv.1, kv.2 + 1) else kv)) =
      lookupCount k' acc := by
  induction acc with
  | nil => rfl
  | cons kv rest ih =>
    by_cases hk : kv.1 = k
    · have hk' : ¬ kv.1 = k' := by
        rw [hk]; exact fun hh => hne hh.symm
      simp [lookupCount, hk, hk', hne, hne.symm, ih]
    · by_cases hk' : kv.1 = k' <;> simp [lookupCount, hk, hk', hne, hne.symm, ih]

theorem lookupCount_eq_zero (acc : List (String × Nat)) (k : String)
    (h : k ∉ acc.map Prod.fst) :
    lookupCount k acc = 0 := by
  induction acc with
  | nil => rfl
  | cons kv rest ih =>
    have hk : ¬ kv.1 = k := fun hh => h (by simp [hh])
    have hrest : k ∉ rest.map Prod.fst := fun hh => h (by simp [hh])
    simp [lookupCount, hk, ih hrest]

theorem lookupCount_append_new (acc : List (String × Nat)) (k : String)
    (h : k ∉ acc.map Prod.fst) :
    lookupCount k (acc ++ [(k, 1)]) = 1 := by
  induction acc with
  | nil => simp [lookupCount]
  | cons kv rest ih =>
    have hk : ¬ kv.1 = k := fun hh => h (by simp [hh])
    have hrest : k ∉ rest.map Prod.fst := fun hh => h (by simp [hh])
    simp [lookupCount, hk, ih hrest]

theorem lookupCount_append_other (acc : List (String × Nat)) (k k' : String)
    (hne : k' ≠ k) :
    lookupCount k' (acc ++ [(k, 1)]) = lookupCount k' acc := by
  induction acc with
  | nil =>
    have : ¬ k = k' := fun hh => hne hh.symm
    simp [lookupCount, this]
  | cons kv rest ih =>
    by_cases hk' : kv.1 = k' <;> simp [lookupCount, hk', ih]

theorem lookupCount_bump_self (acc : List (String × Nat)) (k : String) :
    lookupCount k (bump acc k) = lookupCount k acc + 1 := by
  unfold bump
  by_cases h : k ∈ acc.map Prod.fst
  · rw [if_pos h]; exact lookupCount_map_incr_self acc k h
  · rw [if_neg h, lookupCount_append_new acc k h, lookupCount_eq_zero acc k h]

theorem lookupCount_bump_other (acc : List (String × Nat)) (k k' : String)
    (hne : k' ≠ k) :
    lookupCount k' (bump acc k) = lookupCount k' acc := by
  unfold bump
  by_cases h : k ∈ acc.map Prod.fst
  · rw [if_pos h]; exact lookupCount_map_incr_other acc k k' hne
  · rw [if_neg h]; exact lookupCount_append_other acc k k' hne

theorem foldl_bump_lookup (ks : List String) : ∀ (acc : List (String × Nat)) (k : String),
    lookupCount k (ks.foldl bump acc) = lookupCount k acc + countKey k ks := by
  induction ks with
  | nil => intro acc k; simp [countKey]
  | cons k0 rest ih =>
    intro acc k
    simp only [List.foldl_cons, countKey]
    rw [ih]
    by_cases h : k0 = k
    · subst h
      rw [lookupCount_bump_self]
      simp
      omega
    · rw [lookupCount_bump_other acc k0 k (fun hh => h hh.symm)]
      simp [h]

theorem foldl_bump_keys (ks : List String) : ∀ acc : List (String × Nat),
    keys (ks.foldl bump acc) = ks.foldl insertNew (keys acc) := by
  induction ks with
  | nil => intro _; rfl
  | cons k0 rest ih =>
    intro acc
    simp only [List.foldl_cons]
    rw [ih, keys_bump]

theorem countsFold_keys (ks : List String) : keys (countsFold ks) = firstOcc ks := by
  unfold countsFold firstOcc
  rw [foldl_bump_keys]
  rfl

theorem countsFold_lookup (ks : List String) (k : String) :
    lookupCount k (countsFold ks) = countKey k ks := by
  unfold countsFold
  rw [foldl_bump_lookup]
  simp [lookupCount]

theorem bump_pos (acc : List (String × Nat)) (k : String)
    (h : ∀ kv ∈ acc, 0 < kv.2) : ∀ kv ∈ bump acc k, 0 < kv.2 := by
  unfold bump
  by_cases hmem : k ∈ acc.map Prod.fst
  · rw [if_pos hmem]
    intro kv hkv
    rcases List.mem_map.1 hkv with ⟨kv0, hkv0, hmap⟩
    have h0 := h kv0 hkv0
    by_cases hk : kv0.1 = k
    · rw [if_pos hk] at hmap
      rw [← hmap]
      omega
    · rw [if_neg hk] at hmap
      rw [← hmap]
      exact h0
  · rw [if_neg hmem]
    intro kv hkv
    rcases List.mem_append.1 hkv with h1 | h1
    · exact h kv h1
    · have : kv = (k, 1) := by simpa using h1
      rw [this]
      exact Nat.zero_lt_one

theorem foldl_bump_pos (ks : List String) : ∀ acc : List (String × Nat),
    (∀ kv ∈ acc, 0 < kv.2) → ∀ kv ∈ ks.foldl bump acc, 0 < kv.2 := by
  induction ks with
  | nil => intro acc h; exact h
  | cons k0 rest ih =>
    intro acc h
    simp only [List.foldl_cons]
    exact ih (bump acc k0) (bump_pos acc k0 h)

theorem countsFold_pos (ks : List String) : ∀ kv ∈ countsFold ks, 0 < kv.2 := by
  unfold countsFold
  exact foldl_bump_pos ks [] (fun kv h => absurd h (List.not_mem_nil kv))

theorem foldl_bumpf_pos (f : Smell → String) (smells : List Smell) :
    ∀ acc : List (String × Nat), (∀ kv ∈ acc, 0 < kv.2) →
    ∀ kv ∈ smells.foldl (fun a s => bump a (f s)) acc, 0 < kv.2 := by
  induction smells with
  | nil => intro acc h; exact h
  | cons s rest ih =>
    intro acc h
    simp only [List.foldl_cons]
    exact ih (bump acc (f s)) (bump_pos acc (f s) h)

theorem foldl_bump_map (f : Smell → String) (smells : List Smell) :
    ∀ acc : List (String × Nat),
    smells.foldl (fun a s => bump a (f s)) acc = (smells.map f).foldl bump acc := by
  induction smells with
  | nil => intro _; rfl
  | cons s rest ih =>
    intro acc
    simp only [List.map_cons, List.foldl_cons]
    exact ih (bump acc (f s))

theorem severityData_eq (smells : List Smell) :
    severityData smells = countsFold (smells.map sevKey) :=
  foldl_bump_map sevKey smells []

theorem categoryData_eq (smells : List Smell) :
    categoryData smells = countsFold (smells.map catKey) :=
  foldl_bump_map catKey smells []

theorem confidenceData_eq (smells : List Smell) :
    confidenceData smells = countsFold (smells.map (fun s => confKey s.confidence)) :=
  foldl_bump_map (fun s => confKey s.confidence) smells []

/-! ### Helper lemmas about the filter -/

theorem matchesSearch_empty (smell : Smell) : matchesSearch "" smell = Except.ok true := rfl

theorem matchesSearch_eq_of_description (term : String) (smell : Smell) (d : String)
    (hd : smell.description = some d) :
    matchesSearch term smell = Except.ok ((term == "")
      || jsIncludes (jsToLower d) (jsToLower term)
      || (match smell.smell_type with
          | none => false
          | some t => jsIncludes (jsToLower t) (jsToLower term))) := by
  unfold matchesSearch
  rw [hd]
  by_cases h1 : (term == "") = true
  · simp [h1]
  · rw [if_neg (by simp [h1])]
    by_cases h2 : jsIncludes (jsToLower d) (jsToLower term) = true
    · simp [h1, h2]
    · cases hst : smell.smell_type with
      | none => simp [h1, h2, hst]
      | some t => simp [h1, h2, hst]

/-- C6: a record whose text and taxonomy fields are all present passes the
dashboard filter exactly when the severity predicate is `"all"` or equal to
the record's severity, the category predicate is `"all"` or equal to the
record's category, and the search text is empty or a case-insensitive
substring of the description or of the smell type. -/
theorem smellFilter_keeps_iff (p : FilterPredicate) (s : Smell) (sv c d t : String)
    (hsv : s.severity = some sv) (hc : s.category = some c)
    (hd : s.description = some d) (ht : s.smell_type = some t) :
    ∃ b : Bool, smellFilter p s = Except.ok b ∧
      (b = true ↔ ((p.severity = "all" ∨ p.severity = sv) ∧
        (p.category = "all" ∨ p.category = c) ∧
        (p.searchText = "" ∨ jsIncludes (jsToLower d) (jsToLower p.searchText) = true ∨
          jsIncludes (jsToLower t) (jsToLower p.searchText) = true))) := by
  have hms := matchesSearch_eq_of_description p.searchText s d hd
  simp only [ht] at hms
  unfold smellFilter
  rw [hms]
  refine ⟨_, rfl, ?_⟩
  simp only [optStrEq, hsv, hc, Bool.and_eq_true, Bool.or_eq_true, beq_iff_eq, or_assoc]
  constructor
  · rintro ⟨⟨h1, h2⟩, h3⟩
    refine ⟨?_, ?_, ?_⟩
    · rcases h1 with h1 | h1
      · exact Or.inl h1
      · exact Or.inr h1.symm
    · rcases h2 with h2 | h2
      · exact Or.inl h2
      · exact Or.inr h2.symm
    · exact h3
  · rintro ⟨h1, h2, h3⟩
    refine ⟨⟨?_, ?_⟩, h3⟩
    · rcases h1 with h1 | h1
      · exact Or.inl h1
      · exact Or.inr h1.symm
    · rcases h2 with h2 | h2
      · exact Or.inl h2
      · exact Or.inr h2.symm

theorem smellFilter_keeps_iff_witness :
    ∃ b : Bool,
      smellFilter { severity := "high", category := "style", searchText := "null" }
        sampleSmell = Except.ok b ∧
      (b = true ↔ ((("high" : String) = "all" ∨ ("high" : String) = "high") ∧
        (("style" : String) = "all" ∨ ("style" : String) = "style") ∧
        (("null" : String) = "" ∨
          jsIncludes (jsToLower "Possible null dereference") (jsToLower "null") = true ∨
          jsIncludes (jsToLower "NullCheck") (jsToLower "null") = true))) :=
  smellFilter_keeps_iff { severity := "high", category := "style", searchText := "null" }
    sampleSmell "high" "style" "Possible null dereference" "NullCheck" rfl rfl rfl rfl

/-- C7: filtering with the empty predicate (`all`/`all`/`""`) returns the
input sequence unchanged, and every successful filter output is a sublist
of the input (relative order preserved, never re-sorted). -/
theorem filter_identity_and_stable :
    (∀ l : List Smell, filterSmells emptyPredicate l = Except.ok l) ∧
    (∀ (p : FilterPredicate) (l out : List Smell),
      filterSmells p l = Except.ok out → List.Sublist out l) := by
  constructor
  · intro l
    induction l with
    | nil => rfl
    | cons s rest ih =>
      have hs : smellFilter emptyPredicate s = Except.ok true := rfl
      simp [filterSmells, hs, ih]
  · intro p l
    induction l with
    | nil =>
      intro out h
      simp only [filterSmells, Except.ok.injEq] at h
      subst h
      exact List.nil_sublist []
    | cons s rest ih =>
      intro out h
      simp only [filterSmells] at h
      cases hsf : smellFilter p s with
      | error e => rw [hsf] at h; simp at h
      | ok b =>
        rw [hsf] at h
        cases hrest : filterSmells p rest with
        | error e => rw [hrest] at h; simp at h
        | ok tail =>
          rw [hrest] at h
          simp only [Except.ok.injEq] at h
          have hsub := ih tail hrest
          cases b
          · rw [if_neg (by simp)] at h
            rw [← h]
            exact List.Sublist.cons s hsub
          · rw [if_pos rfl] at h
            rw [← h]
            exact List.Sublist.cons₂ s hsub

theorem filter_identity_and_stable_witness :
    List.Sublist [lowSmell] [lowSmell, criticalSmell] :=
  filter_identity_and_stable.2 { severity := "low", category := "all", searchText := "" }
    [lowSmell, criticalSmell] [lowSmell] rfl

/-- C9 counterexample: with a non-empty search text, filtering a record
that has no `description` throws (`smell.description.toLowerCase()` on
`undefined`) instead of returning a result. -/
theorem filter_throws_on_missing_description :
    filterSmells { severity := "all", category := "all", searchText := "x" }
      [{ description := none }] = Except.error () := rfl

/-- C9 amended: the filter returns a result (never throws) whenever the
search text is empty or every record carries a `description`; only a
non-empty search text meeting a record with no `description` throws. -/
theorem filter_total_when_descriptions_present (p : FilterPredicate) (l : List Smell)
    (h : p.searchText = "" ∨ ∀ s ∈ l, s.description.isSome = true) :
    ∃ out, filterSmells p l = Except.ok out := by
  induction l with
  | nil => exact ⟨[], rfl⟩
  | cons s rest ih =>
    have hs : ∃ b, smellFilter p s = Except.ok b := by
      have hok : ∃ msr, matchesSearch p.searchText s = Except.ok msr := by
        rcases h with h | h
        · exact ⟨true, by rw [h, matchesSearch_empty]⟩
        · obtain ⟨d, hd⟩ := Option.isSome_iff_exists.1 (h s (List.mem_cons_self s rest))
          exact ⟨_, matchesSearch_eq_of_description p.searchText s d hd⟩
      obtain ⟨msr, hmsr⟩ := hok
      exact ⟨(p.severity == "all" || optStrEq s.severity p.severity) &&
          (p.category == "all" || optStrEq s.category p.category) && msr,
        by unfold smellFilter; rw [hmsr]⟩
    obtain ⟨b, hb⟩ := hs
    obtain ⟨tail, htail⟩ := ih (by
      rcases h with h | h
      · exact Or.inl h
      · exact Or.inr fun s' hs' => h s' (List.mem_cons_of_mem s hs'))
    exact ⟨if b then s :: tail else tail, by simp only [filterSmells, hb, htail]⟩

theorem filter_total_when_descriptions_present_witness :
    ∃ out, filterSmells { severity := "all", category := "all", searchText := "x" }
      [{ description := some "Deep nesting detected" }] = Except.ok out :=
  filter_total_when_descriptions_present
    { severity := "all", category := "all", searchText := "x" }
    [{ description := some "Deep nesting detected" }] (Or.inr (by decide))

/-- C1 counterexample: with no provided summary and one `critical` plus one
`low` record, the summary card displays the constant 85 (the named
dashboard displays `N/A`), not the severity-penalty score 84 the claim
derives. -/
theorem quality_fallback_mismatch :
    deriveSummaryScore [criticalSmell, lowSmell] none = 85 ∧
    specFallbackQualityScore [criticalSmell, lowSmell] = 84 ∧
    displayQualityScore none = none ∧
    ¬ (deriveSummaryScore [criticalSmell, lowSmell] none =
        specFallbackQualityScore [criticalSmell, lowSmell]) :=
  ⟨rfl, by decide, rfl, by decide⟩

/-- C1 amended: the displayed quality score is the provided score when it
is non-zero (passed through with no clamping, e.g. 150 stays 150); with no
provided score — or a provided score of 0, which is falsy — the `part_005`
card shows the constant 85 and `CodeSmellDashboard.js` shows `N/A`; no
fallback is derived from the records. -/
theorem quality_score_passthrough_no_clamp :
    (∀ (smells : List Smell) (q : Int), q ≠ 0 → deriveSummaryScore smells (some q) = q) ∧
    (∀ smells : List Smell, deriveSummaryScore smells none = 85) ∧
    (∀ smells : List Smell, deriveSummaryScore smells (some 0) = 85) ∧
    displayQualityScore none = none ∧
    displayQualityScore (some 150) = some 150 := by
  refine ⟨fun smells q hq => ?_, fun _ => rfl, fun _ => rfl, rfl, rfl⟩
  simp [deriveSummaryScore, hq]

theorem quality_score_passthrough_no_clamp_witness :
    deriveSummaryScore [] (some 150) = 150 :=
  quality_score_passthrough_no_clamp.1 [] 150 (by decide)

/-- C4 counterexample: a present but unrecognized severity or category is
passed through unchanged by `SmellCard`'s destructuring defaults, not
mapped to the `low`/`other` fallback. -/
theorem normalize_bogus_passthrough :
    (normalizeSmell { severity := some "bogus" }).severity = "bogus" ∧
    ¬ ((normalizeSmell { severity := some "bogus" }).severity = "low") ∧
    (normalizeSmell { category := some "bogus" }).category = "bogus" ∧
    ¬ ((normalizeSmell { category := some "bogus" }).category = "other") :=
  ⟨rfl, by decide, rfl, by decide⟩

/-- C4 amended: severity and category defaults apply only to absent
fields (absent severity becomes `"low"`, absent category `"other"`); a
present value — recognized or not — passes through unchanged, and the
downstream color lookups stay total via their fallback branches. -/
theorem normalize_defaults_absent_only (raw : Smell) :
    (normalizeSmell raw).severity = raw.severity.getD "low" ∧
    (normalizeSmell raw).category = raw.category.getD "other" ∧
    getSeverityColor "bogus" = "#6B7280" ∧
    getCategoryColor "bogus" = "#6B7280" :=
  ⟨rfl, rfl, rfl, rfl⟩

/-- C5 counterexample: confidence is not clamped — a provided `-5` stays
`-5` (not 0) and a provided `50` stays `50` (not 1). -/
theorem confidence_not_clamped :
    (normalizeSmell { confidence := some (-5) }).confidence = -5 ∧
    ¬ ((normalizeSmell { confidence := some (-5) }).confidence = 0) ∧
    (normalizeSmell { confidence := some 50 }).confidence = 50 ∧
    ¬ ((normalizeSmell { confidence := some 50 }).confidence = 1) :=
  ⟨rfl, by decide, rfl, by decide⟩

/-- C5 amended: a provided numeric confidence passes through unchanged
(no clamping); an absent confidence defaults to 1 in the smell card but
the histogram builder treats a missing confidence as 0
(`smell.confidence || 0`). -/
theorem confidence_passthrough_defaults (raw : Smell) :
    (normalizeSmell raw).confidence = raw.confidence.getD 1 ∧
    (∀ c : Option ℚ, confKey c = confKey (some (c.getD 0))) := by
  refine ⟨rfl, fun c => ?_⟩
  cases c <;> rfl

/-- C10: an absent or empty record collection short-circuits the chart
builder to the static no-data view; no severity, category, or confidence
series is derived. -/
theorem noData_view_on_empty :
    smellVisualization none = VizView.noData ∧
    smellVisualization (some []) = VizView.noData :=
  ⟨rfl, rfl⟩

/-- C2 counterexample: for a single `low` record the severity counts hold
exactly one key, not the four canonical keys. -/
theorem severity_counts_not_four_keys :
    keys (severityData [lowSmell]) = ["low"] ∧
    ¬ (keys (severityData [lowSmell]) = ["critical", "high", "medium", "low"]) :=
  ⟨by decide, by decide⟩

/-- C2 amended: `countsBySeverity` is sparse — it holds one key per
distinct severity value occurring in the input (a missing or empty
severity counted under `"unknown"`), in first-occurrence order, each
mapped to its count; severities absent from the input are omitted, and an
empty collection short-circuits to the no-data view before any counting. -/
theorem severity_counts_sparse (smells : List Smell) :
    keys (severityData smells) = firstOcc (smells.map sevKey) ∧
    (∀ k, lookupCount k (severityData smells) = countKey k (smells.map sevKey)) ∧
    smellVisualization (some []) = VizView.noData := by
  refine ⟨?_, fun k => ?_, rfl⟩
  · rw [severityData_eq, countsFold_keys]
  · rw [severityData_eq, countsFold_lookup]

/-- C8 counterexample: for a single `low` record the severity series holds
one entry, not four, and its color is the green `#059669`, not blue. -/
theorem severity_series_sparse_green_low :
    severityChartData [lowSmell] = [{ name := "low", count := 1, fill := "#059669" }] ∧
    ¬ ((severityChartData [lowSmell]).length = 4) :=
  ⟨by decide, by decide⟩

/-- C8 amended: the severity series holds one entry per severity value
present in the input, in first-occurrence order (zero-count severities are
omitted), each colored through `getSeverityColor`'s fixed table —
critical `#DC2626` (red), high `#EA580C` (orange), medium `#D97706`
(amber), low `#059669` (green; `#65A30D` in `AnalysisResults.js`), with
gray `#6B7280` for anything else. -/
theorem severity_series_data (smells : List Smell) :
    (severityChartData smells).map ChartEntry.name = firstOcc (smells.map sevKey) ∧
    (∀ e ∈ severityChartData smells, e.fill = getSeverityColor e.name) ∧
    getSeverityColor "critical" = "#DC2626" ∧
    getSeverityColor "high" = "#EA580C" ∧
    getSeverityColor "medium" = "#D97706" ∧
    getSeverityColor "low" = "#059669" ∧
    getSeverityColorAR "low" = "#65A30D" := by
  refine ⟨?_, ?_, rfl, rfl, rfl, rfl, rfl⟩
  · unfold severityChartData
    rw [List.map_map]
    show keys (severityData smells) = firstOcc (smells.map sevKey)
    rw [severityData_eq, countsFold_keys]
  · intro e he
    simp only [severityChartData] at he
    rcases List.mem_map.1 he with ⟨kv, _, hkv⟩
    rw [← hkv]

theorem severity_series_data_witness :
    ({ name := "low", count := 1, fill := "#059669" } : ChartEntry).fill =
      getSeverityColor ({ name := "low", count := 1, fill := "#059669" } : ChartEntry).name :=
  (severity_series_data [lowSmell]).2.1
    { name := "low", count := 1, fill := "#059669" } (by decide)

/-! ### Helper lemmas about the confidence buckets -/

theorem ratFloor_eq_intFloor (q : ℚ) : Rat.floor q = ⌊q⌋ := rfl

theorem confBucketLow_p95 : confBucketLow (some (19/20 : ℚ)) = 90 := by
  simp only [confBucketLow, jsRound, Option.getD_some, ratFloor_eq_intFloor]
  norm_num

theorem confBucketLow_one : confBucketLow (some 1) = 100 := by
  simp only [confBucketLow, jsRound, Option.getD_some, ratFloor_eq_intFloor]
  norm_num

theorem confBucketLow_p30 : confBucketLow (some (3/10 : ℚ)) = 30 := by
  simp only [confBucketLow, jsRound, Option.getD_some, ratFloor_eq_intFloor]
  norm_num

theorem confBucketLow_none : confBucketLow none = 0 := by
  simp only [confBucketLow, jsRound, Option.getD_none, ratFloor_eq_intFloor]
  norm_num

theorem confKey_p95 : confKey (some (19/20 : ℚ)) = "90-99%" := by
  unfold confKey
  rw [confBucketLow_p95]
  rfl

theorem confKey_one : confKey (some 1) = "100-109%" := by
  unfold confKey
  rw [confBucketLow_one]
  rfl

theorem confKey_p30 : confKey (some (3/10 : ℚ)) = "30-39%" := by
  unfold confKey
  rw [confBucketLow_p30]
  rfl

theorem confKey_none : confKey none = "0-9%" := by
  unfold confKey
  rw [confBucketLow_none]
  rfl

theorem confidenceData_pos (smells : List Smell) :
    ∀ kv ∈ confidenceData smells, 0 < kv.2 := by
  unfold confidenceData
  exact foldl_bumpf_pos (fun s => confKey s.confidence) smells []
    (fun kv h => absurd h (List.not_mem_nil kv))

/-- C3 counterexample: a record with confidence 1.0 lands in its own
bucket labelled `100-109%`; it is not merged into the `[90,100]` decile
claimed to be inclusive of 100%. -/
theorem confidence_one_own_bucket :
    confidenceData [{ confidence := some 1 }] = [("100-109%", 1)] ∧
    ¬ ("90-99%" ∈ keys (confidenceData [{ confidence := some 1 }])) := by
  have h : confidenceData [{ confidence := some 1 }] = [(confKey (some 1), 1)] := rfl
  rw [confKey_one] at h
  exact ⟨h, by rw [h]; decide⟩

/-- C3 amended: the bucket lower bound is
`floor(round(confidence*100)/10)*10` with an absent confidence treated as
0; 0.95 falls in `90-99%` and 0.3 in `30-39%` as claimed, but 1.0 gets its
own `100-109%` bucket, and the emitted histogram is in first-occurrence
order of the input (not sorted ascending), with zero-count buckets
omitted. -/
theorem confidence_histogram_data :
    confKey (some (19/20 : ℚ)) = "90-99%" ∧
    confKey (some 1) = "100-109%" ∧
    confKey (some (3/10 : ℚ)) = "30-39%" ∧
    confKey none = "0-9%" ∧
    (∀ smells : List Smell,
      keys (confidenceData smells) = firstOcc (smells.map fun s => confKey s.confidence)) ∧
    (∀ smells : List Smell, ∀ kv ∈ confidenceData smells, 0 < kv.2) := by
  refine ⟨confKey_p95, confKey_one, confKey_p30, confKey_none,
    fun smells => ?_, fun smells kv hkv => ?_⟩
  · rw [confidenceData_eq, countsFold_keys]
  · exact confidenceData_pos smells kv hkv

theorem confidence_histogram_data_witness :
    0 < (("100-109%", 1) : String × Nat).2 :=
  confidence_histogram_data.2.2.2.2.2 [{ confidence := some 1 }] ("100-109%", 1)
    (by
      rw [show confidenceData [{ confidence := some 1 }] = [(confKey (some 1), 1)] from rfl,
        confKey_one]
      exact List.mem_singleton.2 rfl)

end DmConflict
